import Mathlib

/-!
Verification of the routing / validation / presentation core of the
multi-agent finance-news repository.  The Python code is shallowly embedded:

* Python `str` is Lean `String` (operations implemented over `String.data`,
  ASCII semantics, which covers every keyword and token the code uses);
* the external agent calls (`web_agent.run`, `validator.run`, `team.run`)
  are parameters of the routing functions;
* a call to an external agent is recorded as an `Event` so that claims about
  "X is invoked / is never invoked / is invoked before Y" are statements
  about the event trace;
* Python exceptions surface as `Except Unit` / `Option` results;
* `json.loads` (standard library, external to the repository) is a parameter
  `parse : String → Option Json`; `none` models a raised exception.
-/

/-! ## Python string primitives -/

/-- `str.lower` for ASCII characters (all keywords in the code are ASCII). -/
def pyLowerChar (c : Char) : Char :=
  if 65 ≤ c.toNat ∧ c.toNat ≤ 90 then Char.ofNat (c.toNat + 32) else c

/-- `str.lower`. -/
def pyLower (s : String) : String := ⟨s.data.map pyLowerChar⟩

/-- Python whitespace stripped by `str.strip()` (ASCII subset). -/
def isPySpace (c : Char) : Bool :=
  c == ' ' || c == '\t' || c == '\n' || c == '\r' || c == '\x0b' || c == '\x0c'

/-- `str.strip()` on the character list: drop whitespace from both ends. -/
def pyStripL (l : List Char) : List Char :=
  List.rdropWhile isPySpace (List.dropWhile isPySpace l)

/-- `str.strip()`. -/
def pyStrip (s : String) : String := ⟨pyStripL s.data⟩

/-- `needle in hay` for lists: `needle` occurs contiguously in `hay`. -/
def pyInL (needle : List Char) : List Char → Bool
  | [] => needle.isEmpty
  | c :: rest => needle.isPrefixOf (c :: rest) || pyInL needle rest

/-- Python's `needle in hay` substring test. -/
def pyContains (hay needle : String) : Bool := pyInL needle.data hay.data

/-- One step of Python `s.split(sep)` for non-empty `sep`, with explicit fuel
(the fuel is always at least `s.length`, see `pySplitL`). -/
def pySplitGo (sep : List Char) : Nat → List Char → List (List Char)
  | _, [] => [[]]
  | 0, s => [s]
  | fuel + 1, c :: rest =>
    if sep.isPrefixOf (c :: rest) ∧ sep ≠ [] then
      [] :: pySplitGo sep fuel ((c :: rest).drop sep.length)
    else
      match pySplitGo sep fuel rest with
      | [] => [[c]]
      | p :: ps => (c :: p) :: ps

/-- Python `s.split(sep)`: non-overlapping left-to-right occurrences of `sep`
separate the parts; empty parts are kept; `"".split(sep) = [""]`. -/
def pySplitL (sep s : List Char) : List (List Char) := pySplitGo sep s.length s

/-- `sep.join(parts)`. -/
def pyJoinL (sep : List Char) : List (List Char) → List Char
  | [] => []
  | [p] => p
  | p :: q :: rest => p ++ sep ++ pyJoinL sep (q :: rest)

/-- The `seen`/`cleaned` loop of `present_response`: keep the first occurrence
of each part, in order. -/
def dedupeParts (seen : List (List Char)) : List (List Char) → List (List Char)
  | [] => []
  | p :: ps =>
    if p ∈ seen then dedupeParts seen ps
    else p :: dedupeParts (p :: seen) ps

/-- The separator `"\n\n"` used by `present_response`. -/
def blankLineSep : List Char := ['\n', '\n']

/-- The textual transform of `present_response`
(`multi_agent_team_market_finance_news.py`): strip, split on blank lines,
drop exact duplicate segments keeping first occurrences, rejoin. -/
def presentText (s : String) : String :=
  ⟨pyJoinL blankLineSep (dedupeParts [] (pySplitL blankLineSep (pyStripL s.data)))⟩

/-! ## JSON values (results of `json.loads`) -/

/-- A Python value produced by `json.loads`. -/
inductive Json where
  | null : Json
  | bool : Bool → Json
  | num : Int → Json
  | str : String → Json
  | arr : List Json → Json
  | obj : List (String × Json) → Json
deriving Repr

mutual

/-- Python `repr` of a `json.loads` value, as used when the value is nested
inside a container rendered by an f-string (string escaping approximated). -/
def pyRepr : Json → String
  | Json.null => "None"
  | Json.bool true => "True"
  | Json.bool false => "False"
  | Json.num n => toString n
  | Json.str s => "\x27" ++ s ++ "\x27"
  | Json.arr xs => "[" ++ pyReprList xs ++ "]"
  | Json.obj kvs => "\x7b" ++ pyReprEntries kvs ++ "\x7d"

/-- `repr` of list elements, comma separated. -/
def pyReprList : List Json → String
  | [] => ""
  | [x] => pyRepr x
  | x :: y :: rest => pyRepr x ++ ", " ++ pyReprList (y :: rest)

/-- `repr` of dict entries, comma separated. -/
def pyReprEntries : List (String × Json) → String
  | [] => ""
  | [kv] => "\x27" ++ kv.1 ++ "\x27: " ++ pyRepr kv.2
  | kv :: kv' :: rest => "\x27" ++ kv.1 ++ "\x27: " ++ pyRepr kv.2 ++ ", " ++ pyReprEntries (kv' :: rest)

end

/-- Python `str` of a `json.loads` value, as interpolated by an f-string. -/
def pyStrJson : Json → String
  | Json.str s => s
  | j => pyRepr j

/-- Python `dict.get(key, default)`; `Except.error` models the
`AttributeError` raised when the receiver is not a dict. -/
def dictGet (j : Json) (key : String) (dflt : Json) : Except Unit Json :=
  match j with
  | Json.obj kvs => Except.ok ((kvs.lookup key).getD dflt)
  | _ => Except.error ()

/-! ## External-call results and event traces -/

/-- The result object of an external agent/team call, as far as the code
inspects it: an object carrying a `content` attribute (whose value may be
Python `None`), a dict, a plain string, or anything else.  The last `String`
component of each shape is the object's `str()` rendering. -/
inductive TeamResponse where
  | withContent : Option String → String → TeamResponse
  | dict : List (String × Option String) → String → TeamResponse
  | str : String → TeamResponse
  | other : String → TeamResponse
deriving Repr, DecidableEq

/-- One external call made while routing a query. -/
inductive Event where
  | webSearch : String → Event
  | validatorRun : String → Event
  | teamRun : String → Event
deriving Repr, DecidableEq

/-! ## `main.py`: FactChecker, QueryClassifier, QueryRouter, CLI loop -/

/-- The `{status, reason}` dict returned by `FactChecker.check`. -/
structure FactCheckResult where
  status : String
  reason : String
deriving Repr, DecidableEq

/-- `FactChecker.check` (`main.py`).  `web` is `self.web_agent.run`; its
result is `none` when the call returns Python `None` (a falsy result) and
`some s` when it returns a response object rendering as `s` via `str()`
(response objects are truthy, so `not search_results` is exactly `isNone`). -/
def FactChecker.check (web : String → Option String) (query : String) : FactCheckResult :=
  let search_results := web query
  let text := pyLower (match search_results with | none => "None" | some s => s)
  if search_results.isNone || pyContains text "no results" then
    { status := "false", reason := "No evidence found in recent reports." }
  else if pyContains text "uncertain" || pyContains text "rumor" || pyContains text "unverified" then
    { status := "uncertain", reason := "Conflicting or insufficient evidence." }
  else
    { status := "verified", reason := "Evidence found in multiple sources." }

/-- The geopolitical/controversial keyword set of `QueryClassifier.classify`. -/
def geopoliticalKeywords : List String :=
  ["trump", "biden", "war", "attack", "venezuela",
   "election", "sanction", "geopolitics", "conflict"]

/-- The ticker keyword set of `QueryClassifier.classify`. -/
def tickerKeywords : List String :=
  ["amzn", "msft", "googl", "meta", "snap",
   "ttwo", "ea", "atvi", "nvda", "amd", "jpm", "bac"]

/-- `QueryClassifier.classify` (`main.py`). -/
def QueryClassifier.classify (query : String) : String :=
  let q := pyLower query
  if geopoliticalKeywords.any (fun keyword => pyContains q keyword) then
    "fact_check"
  else if tickerKeywords.any (fun ticker => pyContains q ticker) then
    "finance_only"
  else
    "mixed"

/-- The polymorphic response unwrapping of `QueryRouter.run_agents`
(`main.py`): `content` attribute, then dict key, then plain string, else
`str()`.  The result is `none` when the `content` attribute or dict entry is
Python `None`. -/
def unwrapTeamResponse : TeamResponse → Option String
  | TeamResponse.withContent c _ => c
  | TeamResponse.dict es r =>
    match es.lookup "content" with
    | some v => v
    | none => some r
  | TeamResponse.str s => some s
  | TeamResponse.other r => some r

/-- `QueryRouter.run_agents` (`main.py`): one `team.run(query)` call plus
response unwrapping. -/
def QueryRouter.run_agents (team : String → TeamResponse) (query : String) :
    List Event × Option String :=
  ([Event.teamRun query], unwrapTeamResponse (team query))

/-- The clarifying message for a `false` fact-check status (`main.py`). -/
def noEvidenceMessage (reason : String) : String :=
  "⚠️ No recent reports confirm this. " ++ reason ++
    " Would you like me to run a hypothetical analysis instead?"

/-- The clarifying message for an `uncertain` fact-check status (`main.py`). -/
def couldNotVerifyMessage (reason : String) : String :=
  "🤔 I couldn’t fully verify this. " ++ reason ++ " Should I proceed hypothetically?"

/-- `QueryRouter._handle_fact_check` (`main.py`). -/
def QueryRouter.handle_fact_check (team : String → TeamResponse) (query : String)
    (check_result : FactCheckResult) : List Event × Option String :=
  if check_result.status = "false" then
    ([], some (noEvidenceMessage check_result.reason))
  else if check_result.status = "uncertain" then
    ([], some (couldNotVerifyMessage check_result.reason))
  else
    QueryRouter.run_agents team query

/-- `QueryRouter.route` (`main.py`).  `web` is the fact checker's
`web_agent.run`, `team` is `self.team.run`; the event list records the
external calls in order. -/
def QueryRouter.route (web : String → Option String) (team : String → TeamResponse)
    (query : String) : List Event × Option String :=
  let category := QueryClassifier.classify query
  if category = "finance_only" then
    QueryRouter.run_agents team query
  else if category = "fact_check" then
    let check_result := FactChecker.check web query
    let h := QueryRouter.handle_fact_check team query check_result
    (Event.webSearch query :: h.1, h.2)
  else
    let check_result := FactChecker.check web query
    if check_result.status = "verified" then
      let r := QueryRouter.run_agents team query
      (Event.webSearch query :: r.1, r.2)
    else
      let h := QueryRouter.handle_fact_check team query check_result
      (Event.webSearch query :: h.1, h.2)

/-- Outcome of one iteration of a CLI loop body. -/
inductive LoopStep where
  | exit : LoopStep
  | skip : LoopStep
  | routed : List Event → Option String → LoopStep
deriving Repr, DecidableEq

/-- One iteration of the `finance_team` CLI loop (`main.py`): only `exit` and
`quit` are reserved, and every other line — including an empty one — is
routed. -/
def mainLoopStep (web : String → Option String) (team : String → TeamResponse)
    (query : String) : LoopStep :=
  if pyLower query ∈ (["exit", "quit"] : List String) then
    LoopStep.exit
  else
    let r := QueryRouter.route web team query
    LoopStep.routed r.1 r.2

/-! ## `multi_agent_team_market_finance_news.py`: safe_parse_json,
present_response, ValidationRouter, CLI loop -/

/-- `safe_parse_json` applied to the value obtained from the validator
response (`multi_agent_team_market_finance_news.py`).  `parse` models
`json.loads`; `parse t = none` models a raised parse exception, and the
argument being `none` models the text itself being Python `None` (on which
`json.loads` raises `TypeError`); every raised exception is caught and the
empty dict is returned. -/
def safe_parse_json (parse : String → Option Json) : Option String → Json
  | some text => (parse text).getD (Json.obj [])
  | none => Json.obj []

/-- The text-extraction expression of `present_response`:
`getattr(tr, "content", None) or (tr.get("content") if isinstance(tr, dict)
else str(tr))`, followed by `.strip()` on the result.  `Except.error` models
the `AttributeError` raised by `None.strip()` when a dict has no `content`
entry (or maps it to Python `None`). -/
def extractText : TeamResponse → Except Unit String
  | TeamResponse.withContent (some s) r => Except.ok (if s = "" then r else s)
  | TeamResponse.withContent none r => Except.ok r
  | TeamResponse.dict es _ =>
    match es.lookup "content" with
    | some (some s) => Except.ok s
    | _ => Except.error ()
  | TeamResponse.str s => Except.ok s
  | TeamResponse.other r => Except.ok r

/-- `present_response` (`multi_agent_team_market_finance_news.py`). -/
def present_response (team_response : TeamResponse) : Except Unit String :=
  (extractText team_response).map presentText

/-- `getattr(validation_result, "content", str(validation_result))` as used
by `ValidationRouter.route`; the result is `none` when the `content`
attribute holds Python `None`. -/
def getattrContent : TeamResponse → Option String
  | TeamResponse.withContent c _ => c
  | TeamResponse.dict _ r => some r
  | TeamResponse.str s => some s
  | TeamResponse.other r => some r

/-- The prompt `ValidationRouter.route` sends to the validator
(`multi_agent_team_market_finance_news.py`). -/
def validatorPrompt (query : String) : String :=
  "Please fact-check this query and provide enhanced context in JSON: " ++ query

/-- The enhanced prompt built by `ValidationRouter.route`
(`multi_agent_team_market_finance_news.py`), embedding the original query and
the parsed status, summary and sources. -/
def enhancedPrompt (query : String) (val_status val_summary val_sources : Json) : String :=
  "\n        ORIGINAL USER QUERY: " ++ query ++
  "\n\n        FACT-CHECK STATUS: " ++ pyStrJson val_status ++
  "\n        FACT-CHECK SUMMARY: " ++ pyStrJson val_summary ++
  "\n        SOURCES: " ++ pyStrJson val_sources ++
  "\n\n        TEAM INSTRUCTIONS:" ++
  "\n        Based on the validated context above, provide a comprehensive financial analysis." ++
  "\n        Use your own research + financial data, but do NOT repeat JSON blocks." ++
  "\n        Structure your response with clear sections and confidence indicators.\n        "

/-- `ValidationRouter.route` (`multi_agent_team_market_finance_news.py`).
`validator` is `self.validator.run`, `team` is `self.team.run`, `parse` is
`json.loads`.  The three `.get` calls raise before the team is invoked when
the parsed value is not a dict. -/
def ValidationRouter.route (parse : String → Option Json)
    (validator team : String → TeamResponse) (query : String) :
    List Event × Except Unit String :=
  let vPrompt := validatorPrompt query
  let validation_result := validator vPrompt
  let val_json := safe_parse_json parse (getattrContent validation_result)
  match dictGet val_json "summary" (Json.str ""),
        dictGet val_json "sources" (Json.arr []),
        dictGet val_json "status" (Json.str "uncertain") with
  | Except.ok val_summary, Except.ok val_sources, Except.ok val_status =>
    let enhanced_prompt := enhancedPrompt query val_status val_summary val_sources
    let team_response := team enhanced_prompt
    ([Event.validatorRun vPrompt, Event.teamRun enhanced_prompt],
      present_response team_response)
  | _, _, _ => ([Event.validatorRun vPrompt], Except.error ())

/-- The validator prompt of the `milti_...` variant (no "in JSON"). -/
def validatorPromptMilti (query : String) : String :=
  "Please fact-check this query and provide enhanced context: " ++ query

/-- `str()` of an external response object, used when the `milti_...` variant
interpolates the whole validation result into its prompt. -/
def strOfTeamResponse : TeamResponse → String
  | TeamResponse.withContent _ r => r
  | TeamResponse.dict _ r => r
  | TeamResponse.str s => s
  | TeamResponse.other r => r

/-- The enhanced prompt of `ValidationRouter.route` in
`milti_agent_team_market_finance_news.py`: the raw validation result is
embedded, unparsed. -/
def enhancedPromptMilti (query : String) (validation_result : TeamResponse) : String :=
  "\n        ORIGINAL USER QUERY: " ++ query ++
  "\n        \n        VALIDATION RESULTS:\n        " ++ strOfTeamResponse validation_result ++
  "\n        \n        TEAM INSTRUCTIONS:" ++
  "\n        Based on the fact-check results above, provide comprehensive financial analysis." ++
  "\n        Use the enhanced/corrected context from the validator to ensure accuracy." ++
  "\n        Combine recent news research with concrete financial data and metrics." ++
  "\n        Structure your response with clear sections and confidence indicators.\n        "

/-- `ValidationRouter.route` of `milti_agent_team_market_finance_news.py`:
no parsing, no present step; the raw team response is returned. -/
def ValidationRouterMilti.route (validator team : String → TeamResponse)
    (query : String) : List Event × TeamResponse :=
  let vPrompt := validatorPromptMilti query
  let validation_result := validator vPrompt
  let enhanced_prompt := enhancedPromptMilti query validation_result
  ([Event.validatorRun vPrompt, Event.teamRun enhanced_prompt], team enhanced_prompt)

/-- One iteration of the `validated_finance_team` CLI loop (both
`multi_...` and `milti_...` files have this shape): `exit`/`quit`/`bye` are
reserved, then blank input is skipped, then the query is routed. -/
def validatedLoopStep (parse : String → Option Json)
    (validator team : String → TeamResponse) (query : String) : LoopStep :=
  if pyLower query ∈ (["exit", "quit", "bye"] : List String) then
    LoopStep.exit
  else if pyStrip query = "" then
    LoopStep.skip
  else
    let r := ValidationRouter.route parse validator team query
    LoopStep.routed r.1 (match r.2 with | Except.ok s => some s | Except.error _ => none)

/-! ## Helper lemmas about the string primitives -/

theorem isPrefixOf_append_self : ∀ (p y : List Char), p.isPrefixOf (p ++ y) = true
  | [], _ => by simp [List.isPrefixOf]
  | c :: cs, y => by
    simp only [List.cons_append, List.isPrefixOf, beq_self_eq_true, Bool.true_and]
    exact isPrefixOf_append_self cs y

theorem isPrefixOf_append_drop :
    ∀ (p s : List Char), p.isPrefixOf s = true → p ++ s.drop p.length = s
  | [], s, _ => by simp
  | c :: cs, [], h => by simp [List.isPrefixOf] at h
  | c :: cs, d :: ds, h => by
    simp only [List.isPrefixOf, Bool.and_eq_true, beq_iff_eq] at h
    simp only [List.length_cons, List.drop_succ_cons, List.cons_append, h.1]
    exact congrArg (d :: ·) (isPrefixOf_append_drop cs ds h.2)

theorem pyInL_append_middle (x m y : List Char) : pyInL m (x ++ (m ++ y)) = true := by
  induction x with
  | nil =>
    simp only [List.nil_append]
    cases m with
    | nil => cases y <;> simp [pyInL, List.isEmpty, List.isPrefixOf]
    | cons c cs =>
      simp only [List.cons_append, pyInL, Bool.or_eq_true]
      exact Or.inl (isPrefixOf_append_self (c :: cs) y)
  | cons c cs ih =>
    simp only [List.cons_append, pyInL, Bool.or_eq_true]
    exact Or.inr ih

theorem pySplitGo_ne_nil (sep : List Char) (fuel : Nat) (s : List Char) :
    pySplitGo sep fuel s ≠ [] := by
  match fuel, s with
  | _, [] => simp [pySplitGo]
  | 0, c :: rest => simp [pySplitGo]
  | fuel + 1, c :: rest =>
    simp only [pySplitGo]
    split
    · simp
    · split <;> simp

theorem pyJoin_splitGo (sep : List Char) :
    ∀ (fuel : Nat) (s : List Char), s.length ≤ fuel →
      pyJoinL sep (pySplitGo sep fuel s) = s := by
  intro fuel
  induction fuel with
  | zero =>
    intro s hs
    have : s = [] := List.length_eq_zero.mp (Nat.le_zero.mp hs)
    subst this
    rfl
  | succ fuel ih =>
    intro s hs
    match s with
    | [] => rfl
    | c :: rest =>
      simp only [pySplitGo]
      split
      · rename_i hpre
        have hd : sep ++ (c :: rest).drop sep.length = c :: rest :=
          isPrefixOf_append_drop sep (c :: rest) hpre.1
        have hlen : ((c :: rest).drop sep.length).length ≤ fuel := by
          have hsep1 : 1 ≤ sep.length :=
            Nat.one_le_iff_ne_zero.mpr (fun h0 => hpre.2 (List.length_eq_zero.mp h0))
          simp only [List.length_cons] at hs
          rw [List.length_drop]
          simp only [List.length_cons]
          omega
        have hrec := ih ((c :: rest).drop sep.length) hlen
        have hne := pySplitGo_ne_nil sep fuel ((c :: rest).drop sep.length)
        match hq : pySplitGo sep fuel ((c :: rest).drop sep.length) with
        | [] => exact absurd hq hne
        | q :: qs =>
          rw [hq] at hrec
          simp only [pyJoinL, List.nil_append]
          rw [hrec]
          exact hd
      · have hlen : rest.length ≤ fuel := by
          simp only [List.length_cons] at hs
          omega
        have hrec := ih rest hlen
        have hne := pySplitGo_ne_nil sep fuel rest
        match hq : pySplitGo sep fuel rest with
        | [] => exact absurd hq hne
        | p :: ps =>
          rw [hq] at hrec
          match ps with
          | [] =>
            simp only [pyJoinL] at hrec ⊢
            rw [hrec]
          | q :: qs =>
            simp only [pyJoinL] at hrec ⊢
            rw [← hrec]
            simp

theorem pyJoin_split (sep l : List Char) : pyJoinL sep (pySplitL sep l) = l :=
  pyJoin_splitGo sep l.length l (Nat.le_refl _)

theorem dedupeParts_eq_self :
    ∀ (parts seen : List (List Char)), parts.Nodup → (∀ p ∈ parts, p ∉ seen) →
      dedupeParts seen parts = parts
  | [], _, _, _ => rfl
  | p :: ps, seen, hnd, hseen => by
    simp only [dedupeParts]
    rw [if_neg (hseen p (List.mem_cons_self p ps))]
    have hnd' := (List.nodup_cons.mp hnd).2
    have hnotp := (List.nodup_cons.mp hnd).1
    refine congrArg (p :: ·) (dedupeParts_eq_self ps (p :: seen) hnd' ?_)
    intro q hq
    simp only [List.mem_cons, not_or]
    exact ⟨fun h => hnotp (h ▸ hq), hseen q (List.mem_cons_of_mem p hq)⟩

theorem dropWhile_pyStripL (l : List Char) :
    List.dropWhile isPySpace (pyStripL l) = pyStripL l := by
  unfold pyStripL
  rw [List.dropWhile_eq_self_iff]
  intro hl
  have hpre :
      List.rdropWhile isPySpace (List.dropWhile isPySpace l) <+: List.dropWhile isPySpace l :=
    List.rdropWhile_prefix isPySpace _
  have hul : 0 < (List.dropWhile isPySpace l).length := Nat.lt_of_lt_of_le hl hpre.length_le
  have hget : (List.rdropWhile isPySpace (List.dropWhile isPySpace l)).get ⟨0, hl⟩
      = (List.dropWhile isPySpace l).get ⟨0, hul⟩ := by
    simpa using hpre.getElem hl
  rw [hget, List.get_mk_zero]
  simp [List.head_dropWhile_not isPySpace l]

theorem pyStripL_idem (l : List Char) : pyStripL (pyStripL l) = pyStripL l := by
  conv_lhs => rw [pyStripL, dropWhile_pyStripL]
  rw [pyStripL]
  exact List.rdropWhile_idempotent isPySpace _

theorem pyStripL_eq_nil_all_space (l : List Char) (h : pyStripL l = []) :
    ∀ c ∈ l, isPySpace c = true := by
  unfold pyStripL at h
  rw [List.rdropWhile_eq_nil_iff] at h
  intro c hc
  rcases List.mem_append.mp
      ((List.takeWhile_append_dropWhile isPySpace l) ▸ hc) with h1 | h2
  · exact List.mem_takeWhile_imp h1
  · exact h c h2

theorem pyLowerChar_space {c : Char} (h : isPySpace c = true) : pyLowerChar c = c := by
  simp only [isPySpace, Bool.or_eq_true, beq_iff_eq] at h
  rcases h with ((((h | h) | h) | h) | h) | h <;> subst h <;> decide

theorem presentText_eq_strip (t : String)
    (h : (pySplitL blankLineSep (pyStripL t.data)).Nodup) :
    presentText t = ⟨pyStripL t.data⟩ := by
  unfold presentText
  rw [dedupeParts_eq_self _ [] h (by simp), pyJoin_split]

theorem presentText_idem (t : String)
    (h : (pySplitL blankLineSep (pyStripL t.data)).Nodup) :
    presentText (presentText t) = presentText t := by
  rw [presentText_eq_strip t h]
  show (⟨pyJoinL blankLineSep
      (dedupeParts [] (pySplitL blankLineSep (pyStripL (pyStripL t.data))))⟩ : String) = _
  rw [pyStripL_idem]
  rw [dedupeParts_eq_self _ [] h (by simp), pyJoin_split]

theorem classify_cases (query : String) :
    QueryClassifier.classify query = "fact_check" ∨
    QueryClassifier.classify query = "finance_only" ∨
    QueryClassifier.classify query = "mixed" := by
  unfold QueryClassifier.classify
  dsimp only
  split
  · exact Or.inl rfl
  · split
    · exact Or.inr (Or.inl rfl)
    · exact Or.inr (Or.inr rfl)

theorem check_status_cases (web : String → Option String) (query : String) :
    (FactChecker.check web query).status = "false" ∨
    (FactChecker.check web query).status = "uncertain" ∨
    (FactChecker.check web query).status = "verified" := by
  unfold FactChecker.check
  dsimp only
  split
  · exact Or.inl rfl
  · split
    · exact Or.inr (Or.inl rfl)
    · exact Or.inr (Or.inr rfl)

theorem pyLower_ne_of_all_space (q : String) (hall : ∀ c ∈ q.data, isPySpace c = true)
    (t : String) (c0 : Char) (cs : List Char) (ht : t.data = c0 :: cs)
    (hc0 : isPySpace c0 = false) : pyLower q ≠ t := by
  intro he
  have hdata : q.data.map pyLowerChar = c0 :: cs := by
    rw [← ht, ← he]
    rfl
  cases hd : q.data with
  | nil => rw [hd] at hdata; simp at hdata
  | cons c cs' =>
    rw [hd] at hdata
    simp only [List.map_cons, List.cons.injEq] at hdata
    have hsp : isPySpace c = true := hall c (by rw [hd]; exact List.mem_cons_self c cs')
    rw [pyLowerChar_space hsp] at hdata
    rw [hdata.1, hc0] at hsp
    exact Bool.false_ne_true hsp

theorem pyStrip_empty_all_space (q : String) (h : pyStrip q = "") :
    ∀ c ∈ q.data, isPySpace c = true := by
  have hdat : pyStripL q.data = [] := by
    have := congrArg String.data h
    simpa [pyStrip] using this
  exact pyStripL_eq_nil_all_space _ hdat

theorem pyLower_notin_reserved (q : String) (h : pyStrip q = "") :
    pyLower q ∉ (["exit", "quit", "bye"] : List String) := by
  have hall := pyStrip_empty_all_space q h
  intro hmem
  simp only [List.mem_cons, List.not_mem_nil, or_false] at hmem
  rcases hmem with h1 | h1 | h1
  · exact pyLower_ne_of_all_space q hall "exit" 'e' ['x', 'i', 't'] rfl (by decide) h1
  · exact pyLower_ne_of_all_space q hall "quit" 'q' ['u', 'i', 't'] rfl (by decide) h1
  · exact pyLower_ne_of_all_space q hall "bye" 'b' ['y', 'e'] rfl (by decide) h1

/-! ## Sample external-call stand-ins used by witnesses -/

/-- A web search whose rendering triggers no status keyword. -/
def sampleWebVerified : String → Option String := fun _ => some "Multiple sources reported this."

/-- A web search whose rendering contains "no results". -/
def sampleWebNoResults : String → Option String :=
  fun _ => some "There were no results for this query."

/-- A team call returning a plain string. -/
def sampleTeam : String → TeamResponse := fun _ => TeamResponse.str "Report."

/-- A validator call whose content is not valid JSON. -/
def sampleValidator : String → TeamResponse :=
  fun _ => TeamResponse.withContent (some "not json") "validator response"

/-- A `json.loads` stand-in that always raises. -/
def sampleParseFail : String → Option Json := fun _ => none

/-- A `json.loads` stand-in that parses `"[]"` to the empty JSON array, as the
real `json.loads` does, and raises otherwise. -/
def sampleParseArr : String → Option Json :=
  fun t => if t = "[]" then some (Json.arr []) else none

/-- A validator call whose content is the JSON text `"[]"`. -/
def sampleValidatorArr : String → TeamResponse :=
  fun _ => TeamResponse.withContent (some "[]") "validator response"

/-! ## Claims -/

/-- The pure substring-to-status function claimed by the spec for
`FactChecker.check` (stated from the spec's words, for comparison with the
code): lower-case the output; `"no results"` gives `false`, else
`"uncertain"`/`"rumor"`/`"unverified"` gives `uncertain`, else `verified`. -/
def specCheckStatus (output : String) : String :=
  let text := pyLower output
  if pyContains text "no results" then "false"
  else if pyContains text "uncertain" || pyContains text "rumor" || pyContains text "unverified" then
    "uncertain"
  else "verified"

/-- C2: `classify` lower-cases the query; it returns `fact_check` when the
lower-cased query contains a geopolitical keyword, `finance_only` when it
contains a ticker keyword and no geopolitical keyword, `mixed` otherwise,
and always returns one of these three values. -/
theorem claim_C2_classify_keywords (query : String) :
    ((∃ k ∈ geopoliticalKeywords, pyContains (pyLower query) k = true) →
      QueryClassifier.classify query = "fact_check") ∧
    ((∀ k ∈ geopoliticalKeywords, pyContains (pyLower query) k = false) →
      (∃ k ∈ tickerKeywords, pyContains (pyLower query) k = true) →
      QueryClassifier.classify query = "finance_only") ∧
    ((∀ k ∈ geopoliticalKeywords, pyContains (pyLower query) k = false) →
      (∀ k ∈ tickerKeywords, pyContains (pyLower query) k = false) →
      QueryClassifier.classify query = "mixed") ∧
    (QueryClassifier.classify query = "fact_check" ∨
      QueryClassifier.classify query = "finance_only" ∨
      QueryClassifier.classify query = "mixed") := by
  refine ⟨?_, ?_, ?_, classify_cases query⟩
  · rintro ⟨k, hk, hc⟩
    have hany : geopoliticalKeywords.any (fun keyword => pyContains (pyLower query) keyword)
        = true := List.any_eq_true.mpr ⟨k, hk, hc⟩
    simp [QueryClassifier.classify, hany]
  · intro hgeo htick
    rcases htick with ⟨k, hk, hc⟩
    have hnot : geopoliticalKeywords.any (fun keyword => pyContains (pyLower query) keyword)
        = false := by
      rw [List.any_eq_false]
      intro k' hk'
      simp [hgeo k' hk']
    have hany : tickerKeywords.any (fun ticker => pyContains (pyLower query) ticker)
        = true := List.any_eq_true.mpr ⟨k, hk, hc⟩
    simp [QueryClassifier.classify, hnot, hany]
  · intro hgeo htick
    have hnot : geopoliticalKeywords.any (fun keyword => pyContains (pyLower query) keyword)
        = false := by
      rw [List.any_eq_false]
      intro k' hk'
      simp [hgeo k' hk']
    have hnot2 : tickerKeywords.any (fun ticker => pyContains (pyLower query) ticker)
        = false := by
      rw [List.any_eq_false]
      intro k' hk'
      simp [htick k' hk']
    simp [QueryClassifier.classify, hnot, hnot2]

/-- Witness for C2 at concrete queries of each class. -/
theorem claim_C2_witness :
    QueryClassifier.classify "Is Trump starting a WAR?" = "fact_check" ∧
    QueryClassifier.classify "How is NVDA priced today?" = "finance_only" ∧
    QueryClassifier.classify "hello" = "mixed" :=
  ⟨(claim_C2_classify_keywords _).1 ⟨"trump", by decide, by decide⟩,
   (claim_C2_classify_keywords _).2.1 (by decide) ⟨"nvda", by decide, by decide⟩,
   (claim_C2_classify_keywords _).2.2.1 (by decide) (by decide)⟩

/-- C3: under the simple-substring variant, whenever the research call
returns a response rendering as `output`, the status of `FactChecker.check`
is exactly the spec's pure substring function of that output text. -/
theorem claim_C3_check_substring (web : String → Option String) (query output : String)
    (h : web query = some output) :
    (FactChecker.check web query).status = specCheckStatus output := by
  unfold FactChecker.check specCheckStatus
  simp only [h]
  simp only [Option.isNone_some, Bool.false_or]
  rw [apply_ite FactCheckResult.status, apply_ite FactCheckResult.status]

/-- Witness for C3 on a concrete "rumor" output. -/
theorem claim_C3_witness :
    (FactChecker.check (fun _ => some "Only a rumor so far.") "q").status
      = specCheckStatus "Only a rumor so far." :=
  claim_C3_check_substring _ "q" _ rfl

/-- C1: the simple-variant router calls `team.run` iff the classification is
`finance_only`, or it is `fact_check`/`mixed` with a `verified` status; for
`fact_check` with status `false`/`uncertain` it returns the corresponding
clarifying message and the team is never invoked. -/
theorem claim_C1_router_gate (web : String → Option String) (team : String → TeamResponse)
    (query : String) :
    ((∃ p, Event.teamRun p ∈ (QueryRouter.route web team query).1) ↔
      (QueryClassifier.classify query = "finance_only" ∨
        ((QueryClassifier.classify query = "fact_check" ∨
          QueryClassifier.classify query = "mixed") ∧
          (FactChecker.check web query).status = "verified"))) ∧
    (QueryClassifier.classify query = "fact_check" →
      ((FactChecker.check web query).status = "false" ∨
        (FactChecker.check web query).status = "uncertain") →
      (∀ p, Event.teamRun p ∉ (QueryRouter.route web team query).1) ∧
      (QueryRouter.route web team query).2 =
        some (if (FactChecker.check web query).status = "false"
          then noEvidenceMessage (FactChecker.check web query).reason
          else couldNotVerifyMessage (FactChecker.check web query).reason)) := by
  rcases classify_cases query with hcat | hcat | hcat <;>
    rcases check_status_cases web query with hst | hst | hst <;>
    simp [QueryRouter.route, QueryRouter.run_agents, QueryRouter.handle_fact_check, hcat, hst]

/-- Witness for C1: a geopolitical query with a "no results" search yields
the no-evidence clarification and no team call. -/
theorem claim_C1_witness :
    (∀ p, Event.teamRun p ∉ (QueryRouter.route sampleWebNoResults sampleTeam "trump news").1) ∧
    (QueryRouter.route sampleWebNoResults sampleTeam "trump news").2 =
      some (if (FactChecker.check sampleWebNoResults "trump news").status = "false"
        then noEvidenceMessage (FactChecker.check sampleWebNoResults "trump news").reason
        else couldNotVerifyMessage (FactChecker.check sampleWebNoResults "trump news").reason) :=
  (claim_C1_router_gate sampleWebNoResults sampleTeam "trump news").2
    (by decide) (Or.inl (by decide))

/-- C4: a `mixed` query always fact-checks first (the web search is the first
external call), and a `finance_only` query never triggers a fact-check. -/
theorem claim_C4_factcheck_order (web : String → Option String) (team : String → TeamResponse)
    (query : String) :
    (QueryClassifier.classify query = "mixed" →
      ∃ rest, (QueryRouter.route web team query).1 = Event.webSearch query :: rest) ∧
    (QueryClassifier.classify query = "finance_only" →
      ∀ q', Event.webSearch q' ∉ (QueryRouter.route web team query).1) := by
  constructor
  · intro hcat
    rcases check_status_cases web query with hst | hst | hst <;>
      simp [QueryRouter.route, QueryRouter.run_agents, QueryRouter.handle_fact_check, hcat, hst]
  · intro hcat
    simp [QueryRouter.route, QueryRouter.run_agents, hcat]

/-- Witness for C4 at a mixed query and a finance-only query. -/
theorem claim_C4_witness :
    (∃ rest, (QueryRouter.route sampleWebVerified sampleTeam "hello").1 =
      Event.webSearch "hello" :: rest) ∧
    (∀ q', Event.webSearch q' ∉
      (QueryRouter.route sampleWebVerified sampleTeam "How is NVDA priced today?").1) :=
  ⟨(claim_C4_factcheck_order sampleWebVerified sampleTeam "hello").1 (by decide),
   (claim_C4_factcheck_order sampleWebVerified sampleTeam "How is NVDA priced today?").2
     (by decide)⟩

theorem pyContains_append_middle (x m y : String) : pyContains (x ++ (m ++ y)) m = true := by
  unfold pyContains
  rw [String.data_append, String.data_append]
  exact pyInL_append_middle x.data m.data y.data

theorem enhancedPrompt_contains_query (q : String) (st sm srcs : Json) :
    pyContains (enhancedPrompt q st sm srcs) q = true := by
  unfold enhancedPrompt pyContains
  simp only [String.data_append, List.append_assoc]
  exact pyInL_append_middle _ _ _

/-- C5 counterexample: with the validator's content being the JSON text
`"[]"` (which `json.loads` parses to a list), the `.get` calls raise an
`AttributeError` and `ValidationRouter.route` never invokes the team, so
"always forwards to the AnalysisTeam exactly once" fails as stated. -/
theorem claim_C5_counterexample :
    (ValidationRouter.route sampleParseArr sampleValidatorArr sampleTeam "q").1 =
      [Event.validatorRun (validatorPrompt "q")] ∧
    (ValidationRouter.route sampleParseArr sampleValidatorArr sampleTeam "q").2 =
      Except.error () := ⟨rfl, rfl⟩

/-- C5 (amended): `ValidationRouter.route` always runs the validator first,
with no classification step; whenever the parsed validator output is a JSON
object (including the empty object substituted on parse failure) it embeds
the parsed status, summary and sources into the enhanced prompt containing
the original query and forwards that prompt to the team exactly once; the
`milti_...` variant always forwards unconditionally; but a validator output
parsing to a non-object JSON value raises before any dispatch. -/
theorem claim_C5_validation_first (parse : String → Option Json)
    (validator team : String → TeamResponse) (query : String) :
    ((ValidationRouter.route parse validator team query).1.head? =
      some (Event.validatorRun (validatorPrompt query))) ∧
    (∀ kvs, safe_parse_json parse (getattrContent (validator (validatorPrompt query)))
        = Json.obj kvs →
      (ValidationRouter.route parse validator team query).1 =
        [Event.validatorRun (validatorPrompt query),
         Event.teamRun (enhancedPrompt query
           ((kvs.lookup "status").getD (Json.str "uncertain"))
           ((kvs.lookup "summary").getD (Json.str ""))
           ((kvs.lookup "sources").getD (Json.arr [])))] ∧
      pyContains (enhancedPrompt query
           ((kvs.lookup "status").getD (Json.str "uncertain"))
           ((kvs.lookup "summary").getD (Json.str ""))
           ((kvs.lookup "sources").getD (Json.arr []))) query = true) ∧
    ((ValidationRouterMilti.route validator team query).1 =
      [Event.validatorRun (validatorPromptMilti query),
       Event.teamRun (enhancedPromptMilti query (validator (validatorPromptMilti query)))]) := by
  refine ⟨?_, ?_, rfl⟩
  · cases hv : safe_parse_json parse (getattrContent (validator (validatorPrompt query))) <;>
      simp [ValidationRouter.route, hv, dictGet]
  · intro kvs h
    refine ⟨?_, enhancedPrompt_contains_query query _ _ _⟩
    simp [ValidationRouter.route, h, dictGet]

/-- Witness for C5: on a parse failure the route still forwards once, with
the defaulted fields, and the prompt contains the query. -/
theorem claim_C5_witness :
    (ValidationRouter.route sampleParseFail sampleValidator sampleTeam "qq").1 =
      [Event.validatorRun (validatorPrompt "qq"),
       Event.teamRun (enhancedPrompt "qq" (Json.str "uncertain") (Json.str "") (Json.arr []))] ∧
    pyContains (enhancedPrompt "qq" (Json.str "uncertain") (Json.str "") (Json.arr [])) "qq"
      = true := by
  have h := (claim_C5_validation_first sampleParseFail sampleValidator sampleTeam "qq").2.1 [] rfl
  exact ⟨h.1, h.2⟩

/-- C6: `safe_parse_json` substitutes the empty dict on every unparseable
input, after which the router proceeds with status `"uncertain"`, empty
summary and empty sources in the prompt it forwards. -/
theorem claim_C6_parse_failure_defaults :
    (∀ (parse : String → Option Json) (t : String), parse t = none →
      safe_parse_json parse (some t) = Json.obj []) ∧
    (∀ (parse : String → Option Json) (validator team : String → TeamResponse) (query : String),
      (∀ t, getattrContent (validator (validatorPrompt query)) = some t → parse t = none) →
      (ValidationRouter.route parse validator team query).1 =
        [Event.validatorRun (validatorPrompt query),
         Event.teamRun (enhancedPrompt query (Json.str "uncertain") (Json.str "")
           (Json.arr []))]) := by
  constructor
  · intro parse t h
    simp [safe_parse_json, h]
  · intro parse validator team query h
    have hval : safe_parse_json parse (getattrContent (validator (validatorPrompt query)))
        = Json.obj [] := by
      cases hg : getattrContent (validator (validatorPrompt query)) with
      | none => rfl
      | some t => simp [safe_parse_json, h t hg]
    simp [ValidationRouter.route, hval, dictGet, List.lookup]

/-- Witness for C6 on a concrete failing parse. -/
theorem claim_C6_witness :
    safe_parse_json sampleParseFail (some "not json") = Json.obj [] ∧
    (ValidationRouter.route sampleParseFail sampleValidator sampleTeam "hi").1 =
      [Event.validatorRun (validatorPrompt "hi"),
       Event.teamRun (enhancedPrompt "hi" (Json.str "uncertain") (Json.str "") (Json.arr []))] :=
  ⟨claim_C6_parse_failure_defaults.1 sampleParseFail "not json" rfl,
   claim_C6_parse_failure_defaults.2 sampleParseFail sampleValidator sampleTeam "hi"
     (fun _ _ => rfl)⟩

/-- C7 counterexample: presenting `"x\n\nx \n\nx"` yields `"x\n\nx "`
(dropping the duplicate exposes a segment with trailing whitespace), and
presenting that output again yields `"x"`, so `present` is not idempotent. -/
theorem claim_C7_counterexample :
    present_response (TeamResponse.str "x\n\nx \n\nx") = Except.ok "x\n\nx " ∧
    present_response (TeamResponse.str "x\n\nx ") = Except.ok "x" ∧
    ("x\n\nx " : String) ≠ "x" := ⟨rfl, rfl, by decide⟩

/-- C7 (amended): `present` is idempotent on every team response whose
extracted, stripped text has no duplicate blank-line segments — there the
dedup pass is the identity and a second application returns the output
unchanged.  (On texts with duplicates, dropping a duplicate can leave a
segment with trailing whitespace last, which a second application strips.) -/
theorem claim_C7_present_idempotent (tr : TeamResponse) (y : String)
    (hok : present_response tr = Except.ok y)
    (hnd : ∀ s, extractText tr = Except.ok s →
      (pySplitL blankLineSep (pyStripL s.data)).Nodup) :
    present_response (TeamResponse.str y) = Except.ok y := by
  unfold present_response at hok ⊢
  cases he : extractText tr with
  | error e => rw [he] at hok; simp [Except.map] at hok
  | ok s =>
    rw [he] at hok
    simp only [Except.map, Except.ok.injEq] at hok
    subst hok
    simp only [extractText, Except.map, Except.ok.injEq]
    exact presentText_idem s (hnd s he)

/-- Witness for C7 on a duplicate-free response. -/
theorem claim_C7_witness :
    present_response (TeamResponse.str (presentText "a\n\nb"))
      = Except.ok (presentText "a\n\nb") :=
  claim_C7_present_idempotent (TeamResponse.str "a\n\nb") (presentText "a\n\nb") rfl
    (fun s hs => by
      simp only [extractText, Except.ok.injEq] at hs
      subst hs
      decide)

/-- C8 counterexample: in the `main.py` loop, `bye` is not reserved — it is
routed like any other query (the routing logic runs). -/
theorem claim_C8_counterexample :
    mainLoopStep sampleWebVerified sampleTeam "bye" =
      LoopStep.routed [Event.webSearch "bye", Event.teamRun "bye"] (some "Report.") ∧
    mainLoopStep sampleWebVerified sampleTeam "bye" ≠ LoopStep.exit := ⟨rfl, by decide⟩

/-- C8 (amended): `exit` and `quit` (any casing) terminate both CLI loops
without invoking any routing logic; `bye` additionally terminates the
validated-team loop, but not the `main.py` loop. -/
theorem claim_C8_reserved_tokens (web : String → Option String) (team : String → TeamResponse)
    (parse : String → Option Json) (validator vteam : String → TeamResponse) (query : String) :
    (pyLower query ∈ (["exit", "quit"] : List String) →
      mainLoopStep web team query = LoopStep.exit) ∧
    (pyLower query ∈ (["exit", "quit", "bye"] : List String) →
      validatedLoopStep parse validator vteam query = LoopStep.exit) := by
  constructor
  · intro h
    simp [mainLoopStep, h]
  · intro h
    simp [validatedLoopStep, h]

/-- Witness for C8 at upper-cased reserved tokens. -/
theorem claim_C8_witness :
    mainLoopStep sampleWebVerified sampleTeam "QUIT" = LoopStep.exit ∧
    validatedLoopStep sampleParseFail sampleValidator sampleTeam "ByE" = LoopStep.exit :=
  ⟨(claim_C8_reserved_tokens sampleWebVerified sampleTeam sampleParseFail sampleValidator
      sampleTeam "QUIT").1 (by decide),
   (claim_C8_reserved_tokens sampleWebVerified sampleTeam sampleParseFail sampleValidator
      sampleTeam "ByE").2 (by decide)⟩

/-- C9 counterexample: the `main.py` loop has no blank-input guard — an empty
line is routed (it classifies as `mixed`, triggering a fact-check and, on a
verified status, a team call). -/
theorem claim_C9_counterexample :
    mainLoopStep sampleWebVerified sampleTeam "" =
      LoopStep.routed [Event.webSearch "", Event.teamRun ""] (some "Report.") := rfl

/-- C9 (amended): in the validated-team CLI loops an empty or
whitespace-only input is silently skipped — no output, no validator call, no
team call; the `main.py` loop lacks this guard. -/
theorem claim_C9_blank_skip (parse : String → Option Json)
    (validator team : String → TeamResponse) (query : String)
    (h : pyStrip query = "") :
    validatedLoopStep parse validator team query = LoopStep.skip := by
  have hni := pyLower_notin_reserved query h
  simp [validatedLoopStep, hni, h]

/-- Witness for C9 on a whitespace-only input. -/
theorem claim_C9_witness :
    validatedLoopStep sampleParseFail sampleValidator sampleTeam "   " = LoopStep.skip :=
  claim_C9_blank_skip sampleParseFail sampleValidator sampleTeam "   " (by decide)

/-- C10 counterexample: a dict whose `content` entry is the empty string does
not raise — `present_response` returns the empty string. -/
theorem claim_C10_counterexample :
    present_response (TeamResponse.dict [("content", some "")] "resp") = Except.ok "" := rfl

/-- C10 (amended): `present_response` raises (`AttributeError` on
`None.strip()`) exactly for dict inputs lacking a `content` key or mapping
it to Python `None`; a dict with a (possibly empty) string `content`,
objects with a `content` field, and plain strings are all handled. -/
theorem claim_C10_dict_content (es : List (String × Option String)) (r : String) :
    ((es.lookup "content" = none ∨ es.lookup "content" = some none) →
      present_response (TeamResponse.dict es r) = Except.error ()) ∧
    (∀ s, es.lookup "content" = some (some s) →
      present_response (TeamResponse.dict es r) = Except.ok (presentText s)) ∧
    (∀ c rr, ∃ out, present_response (TeamResponse.withContent c rr) = Except.ok out) ∧
    (∀ s, present_response (TeamResponse.str s) = Except.ok (presentText s)) := by
  refine ⟨?_, ?_, ?_, fun s => rfl⟩
  · rintro (h | h) <;> simp [present_response, extractText, Except.map, h]
  · intro s h
    simp [present_response, extractText, Except.map, h]
  · intro c rr
    cases c with
    | none => exact ⟨presentText rr, rfl⟩
    | some s =>
      by_cases hs : s = ""
      · subst hs
        exact ⟨presentText rr, rfl⟩
      · exact ⟨presentText s, by simp [present_response, extractText, Except.map, hs]⟩

/-- Witness for C10: the missing-`content` dict raises; a plain string is
presented. -/
theorem claim_C10_witness :
    present_response (TeamResponse.dict [] "resp") = Except.error () ∧
    present_response (TeamResponse.str "hello") = Except.ok (presentText "hello") :=
  ⟨(claim_C10_dict_content [] "resp").1 (Or.inl rfl),
   (claim_C10_dict_content [] "resp").2.2.2 "hello"⟩
